import Mathlib

/-!
Verification of the Library Inventory Manager core
(`Lab_Assignment-3/Library_manager.py`).

The Python classes `Book` / `ReferenceBook` are embedded as a single
structure with a variant flag `isRef` (class-based dispatch becomes a
guard in `Book.issue`, exactly the transformation the design notes
describe).  The serializable dict produced by `to_dict` / consumed by
`from_dict` is embedded as `BookDict`, a record of optional string
fields: a `none` field models an absent key, and `Option.getD` models
Python's `dict.get` with a default.  The inventory is a `List Book`;
file-system reading and JSON parsing in `load_catalog` are outside the
embedded fragment, so `LoadInput` models the four possible outcomes of
that stage (missing file, empty file, parsed item list, unparseable
content) and the interactive recovery choice read inside the corrupted
branch is an explicit `String` argument, with the disk effect of each
branch recorded as a `DiskAction`.
-/

/-- Drops leading whitespace characters from a char list. -/
def dropLeadWs : List Char → List Char
  | [] => []
  | c :: rest => if c.isWhitespace then dropLeadWs rest else c :: rest

/-- Embeds Python `str.strip()`: removes leading and trailing
whitespace. -/
def pyStrip (s : String) : String :=
  ⟨(dropLeadWs (dropLeadWs s.data).reverse).reverse⟩

/-- Embeds Python `str.lower()` character by character. -/
def pyLower (s : String) : String :=
  ⟨s.data.map Char.toLower⟩

/-- Embeds Python `Book` and its subclass `ReferenceBook`:
`isRef = true` is the `ReferenceBook` (non-circulating) variant. -/
structure Book where
  title : String
  author : String
  isbn : String
  status : String
  isRef : Bool
  deriving DecidableEq, Repr

/-- Embeds `Book.__init__` / `ReferenceBook.__init__`: trims title,
author and isbn, trims and lower-cases the status. -/
def mkBook (title author isbn status : String) (ref : Bool) : Book :=
  ⟨pyStrip title, pyStrip author, pyStrip isbn, pyLower (pyStrip status), ref⟩

/-- The serializable representation of a record: each field is `none`
when the corresponding key is absent from the dict. -/
structure BookDict where
  title : Option String
  author : Option String
  isbn : Option String
  status : Option String
  type : Option String
  deriving DecidableEq, Repr

/-- Embeds `Book.to_dict`: all five keys present, `type` holding the
class name used for reconstruction. -/
def Book.to_dict (b : Book) : BookDict :=
  ⟨some b.title, some b.author, some b.isbn, some b.status,
   some (if b.isRef then "ReferenceBook" else "Book")⟩

/-- Embeds `Book.from_dict`: `data["title"]`, `data["author"]`,
`data["isbn"]` raise `KeyError` when absent (modelled as `none`);
`data.get("status", "available")` and `data.get("type", "Book")`
default; any `type` other than `"ReferenceBook"` builds a plain
`Book`. -/
def Book.from_dict (d : BookDict) : Option Book :=
  match d.title, d.author, d.isbn with
  | some t, some a, some i =>
      some (mkBook t a i (d.status.getD "available")
        ((d.type.getD "Book") == "ReferenceBook"))
  | _, _, _ => none

/-- Embeds `Book.is_available`. -/
def Book.is_available (b : Book) : Bool :=
  b.status == "available"

/-- Embeds `Book.issue` and the `ReferenceBook.issue` override as a
guard on the variant flag; returns the updated record and the boolean
result. -/
def Book.issue (b : Book) : Book × Bool :=
  if b.isRef then (b, false)
  else if b.is_available then
    (⟨b.title, b.author, b.isbn, "issued", b.isRef⟩, true)
  else (b, false)

/-- Embeds `Book.return_book` (not overridden in `ReferenceBook`). -/
def Book.return_book (b : Book) : Book × Bool :=
  if b.is_available then (b, false)
  else (⟨b.title, b.author, b.isbn, "available", b.isRef⟩, true)

/-- Char-list version of Python's `startswith` used to define substring
containment. -/
def leadEq : List Char → List Char → Bool
  | [], _ => true
  | _ :: _, [] => false
  | a :: as, b :: bs => a == b && leadEq as bs

/-- Char-list version of Python's `q in s` substring test. -/
def listContains (needle : List Char) : List Char → Bool
  | [] => leadEq needle []
  | c :: rest => leadEq needle (c :: rest) || listContains needle rest

/-- Embeds `LibraryInventory.search_by_title`: trims and lower-cases
the query, keeps the books whose lower-cased title contains it. -/
def search_by_title (books : List Book) (q : String) : List Book :=
  books.filter (fun b => listContains (pyLower (pyStrip q)).data (pyLower b.title).data)

/-- Embeds `LibraryInventory.search_by_isbn`: first exact match on the
trimmed query, if any. -/
def search_by_isbn (books : List Book) (q : String) : Option Book :=
  books.find? (fun b => b.isbn == pyStrip q)

/-- Embeds `LibraryInventory.add_book`: reject (unchanged list, `false`)
when the isbn is already present, else append and return `true`. -/
def add_book (books : List Book) (b : Book) : List Book × Bool :=
  match search_by_isbn books b.isbn with
  | some _ => (books, false)
  | none => (books ++ [b], true)

/-- Embeds the issue path of the CLI (`search_by_isbn` then in-place
`issue` on the found book): the first book whose isbn matches the
trimmed query is replaced by its issued version; the boolean is the
issue outcome, `false` when no book matches. -/
def issue_by_isbn (books : List Book) (q : String) : List Book × Bool :=
  match books with
  | [] => ([], false)
  | b :: rest =>
      if b.isbn == pyStrip q then ((Book.issue b).1 :: rest, (Book.issue b).2)
      else
        let r := issue_by_isbn rest q
        (b :: r.1, r.2)

/-- Embeds `LibraryInventory.save_catalog` at the JSON-value level: the
document written is the array of the per-book dicts. -/
def save_catalog (books : List Book) : List BookDict :=
  books.map Book.to_dict

/-- The outcome of reading and JSON-parsing the catalog file, the stage
of `load_catalog` that precedes the embedded logic. -/
inductive LoadInput where
  | missing
  | emptyFile
  | parsed (items : List BookDict)
  | corrupt (raw : String)
  deriving DecidableEq, Repr

/-- The disk effect of a `load_catalog` run: untouched, reset to an
empty list, or backed up and then reset. -/
inductive DiskAction where
  | keep
  | resetFile
  | backupThenReset
  deriving DecidableEq, Repr

/-- What a `load_catalog` run leaves behind: the in-memory book list,
the boolean the method returns, and the disk effect. -/
structure LoadOutcome where
  books : List Book
  ok : Bool
  action : DiskAction
  deriving DecidableEq, Repr

/-- Embeds `LibraryInventory.load_catalog`.  A missing or empty file
yields an empty catalog and `true`.  A parsed item list is decoded with
`Book.from_dict`; a `KeyError` on any item aborts the whole load (the
generic exception handler: empty catalog, `false`).  Unparseable
content prompts for a recovery choice: `r` resets the file, `b` backs
it up and resets, anything else aborts the load; in every branch the
in-memory catalog ends empty and the method returns `true` (disk writes
assumed to succeed, as in the happy path of the Python handlers). -/
def load_catalog : LoadInput → String → LoadOutcome
  | .missing, _ => ⟨[], true, .keep⟩
  | .emptyFile, _ => ⟨[], true, .keep⟩
  | .parsed items, _ =>
      match items.mapM Book.from_dict with
      | some bs => ⟨bs, true, .keep⟩
      | none => ⟨[], false, .keep⟩
  | .corrupt _, choice =>
      if pyLower (pyStrip choice) = "r" then ⟨[], true, .resetFile⟩
      else if pyLower (pyStrip choice) = "b" then ⟨[], true, .backupThenReset⟩
      else ⟨[], true, .keep⟩

theorem listContains_nil (l : List Char) : listContains [] l = true := by
  cases l with
  | nil => rfl
  | cons c rest => simp [listContains, leadEq]

theorem pyLower_pyStrip_available : pyLower (pyStrip "available") = "available" := by
  decide

theorem pyLower_pyStrip_issued : pyLower (pyStrip "issued") = "issued" := by
  decide

theorem beq_refBook_refBook : (("ReferenceBook" : String) == "ReferenceBook") = true := by
  decide

theorem beq_book_refBook : (("Book" : String) == "ReferenceBook") = false := by
  decide

/-- C1: for every valid Record (either variant, trimmed non-empty
title/author/id, status available or issued), decoding the encoding
gives back a field-equal Record: `from_dict (to_dict r) = some r`. -/
theorem claim_C1 (b : Book)
    (ht : pyStrip b.title = b.title) (hten : b.title ≠ "")
    (ha : pyStrip b.author = b.author) (haen : b.author ≠ "")
    (hi : pyStrip b.isbn = b.isbn) (hien : b.isbn ≠ "")
    (hs : b.status = "available" ∨ b.status = "issued") :
    Book.from_dict (Book.to_dict b) = some b := by
  obtain ⟨t, a, i, s, r⟩ := b
  simp only at ht ha hi hs
  rcases hs with h | h <;> subst h <;> cases r <;>
    simp [Book.from_dict, Book.to_dict, mkBook, ht, ha, hi,
      pyLower_pyStrip_available, pyLower_pyStrip_issued,
      beq_refBook_refBook, beq_book_refBook]

/-- Witness for C1 at a concrete valid Standard record. -/
theorem claim_C1_witness :
    Book.from_dict (Book.to_dict ⟨"Go", "A", "111", "available", false⟩)
      = some ⟨"Go", "A", "111", "available", false⟩ :=
  claim_C1 ⟨"Go", "A", "111", "available", false⟩ (by decide) (by decide)
    (by decide) (by decide) (by decide) (by decide) (Or.inl rfl)

/-- C2 counterexample: decoding a persisted ReferenceBook entry whose
status is "issued" yields a NonCirculating record with status Issued,
so the invariant "a NonCirculating Record's status is always Available,
and no operation including decode can make it Issued" fails on the
code. -/
theorem claim_C2_counterexample :
    Book.from_dict ⟨some "Atlas", some "B", some "9", some "issued", some "ReferenceBook"⟩
        = some ⟨"Atlas", "B", "9", "issued", true⟩ ∧
    (⟨"Atlas", "B", "9", "issued", true⟩ : Book).isRef = true ∧
    (⟨"Atlas", "B", "9", "issued", true⟩ : Book).status = "issued" := by
  decide

/-- C2 amended: the transition operations never make a NonCirculating
record Issued — `issue` on it always fails without mutation and
`return_book` always leaves the status "available" — but construction
and decode accept the supplied status verbatim (normalized), so a
NonCirculating record with status "issued" can be constructed or
loaded. -/
theorem claim_C2 (b : Book) (h : b.isRef = true) :
    Book.issue b = (b, false) ∧ (Book.return_book b).1.status = "available" := by
  refine ⟨by simp [Book.issue, h], ?_⟩
  cases hav : b.is_available with
  | true =>
      have hs : b.status = "available" := by
        unfold Book.is_available at hav
        exact eq_of_beq hav
      simp [Book.return_book, Book.is_available, hav, hs]
  | false =>
      have hs : b.status ≠ "available" := by
        unfold Book.is_available at hav
        exact beq_eq_false_iff_ne.mp hav
      simp [Book.return_book, Book.is_available, hav, hs]

/-- Witness for C2 at a concrete NonCirculating record. -/
theorem claim_C2_witness :
    Book.issue ⟨"R", "A", "1", "available", true⟩
        = (⟨"R", "A", "1", "available", true⟩, false) ∧
    (Book.return_book ⟨"R", "A", "1", "available", true⟩).1.status = "available" :=
  claim_C2 ⟨"R", "A", "1", "available", true⟩ rfl

/-- C3: adding a record whose id already occurs in the store returns
false and leaves the store unchanged (in particular the records bearing
that id are exactly the ones already there — the first added one);
adding a record with a fresh id appends it and returns true. -/
theorem claim_C3 (books : List Book) (b : Book) (ht : pyStrip b.isbn = b.isbn) :
    ((∃ x ∈ books, x.isbn = b.isbn) →
        add_book books b = (books, false) ∧
        (add_book books b).1.filter (fun x => x.isbn == b.isbn)
          = books.filter (fun x => x.isbn == b.isbn)) ∧
    ((∀ x ∈ books, x.isbn ≠ b.isbn) → add_book books b = (books ++ [b], true)) := by
  cases hfind : books.find? (fun x => x.isbn == b.isbn) with
  | none =>
      constructor
      · rintro ⟨x, hx, hxeq⟩
        have hnot := List.find?_eq_none.mp hfind x hx
        simp [hxeq] at hnot
      · intro _
        simp [add_book, search_by_isbn, ht, hfind]
  | some x =>
      constructor
      · intro _
        constructor <;> simp [add_book, search_by_isbn, ht, hfind]
      · intro hall
        have hmem := List.mem_of_find?_eq_some hfind
        have hp : x.isbn = b.isbn := by
          have h2 := List.find?_some hfind
          simpa using h2
        exact absurd hp (hall x hmem)

/-- Witness for C3: a duplicate id is rejected and the store keeps the
first record; a fresh id is appended. -/
theorem claim_C3_witness :
    (add_book [⟨"Go", "A", "111", "available", false⟩]
        ⟨"Other", "B", "111", "available", false⟩
      = ([⟨"Go", "A", "111", "available", false⟩], false)) ∧
    (add_book [⟨"Go", "A", "111", "available", false⟩]
        ⟨"Other", "B", "222", "available", false⟩
      = ([⟨"Go", "A", "111", "available", false⟩,
          ⟨"Other", "B", "222", "available", false⟩], true)) :=
  ⟨((claim_C3 [⟨"Go", "A", "111", "available", false⟩]
      ⟨"Other", "B", "111", "available", false⟩ (by decide)).1
      ⟨⟨"Go", "A", "111", "available", false⟩, by simp, rfl⟩).1,
   (claim_C3 [⟨"Go", "A", "111", "available", false⟩]
      ⟨"Other", "B", "222", "available", false⟩ (by decide)).2
      (by decide)⟩

/-- C4 counterexample: on unparseable content the code's load returns
the very same outcome (empty catalog, boolean true, disk untouched) as
a successful load of a missing file — there is no distinct typed
CorruptionDetected result — and the disk effect depends on the
recovery choice consumed inside load itself (the interactive prompt),
not on a later adapter decision. -/
theorem claim_C4_counterexample :
    load_catalog (.corrupt "\x7bnot valid json") "x" = load_catalog .missing "x" ∧
    (load_catalog (.corrupt "\x7bnot valid json") "x").ok = true ∧
    (load_catalog (.corrupt "\x7bnot valid json") "r").action = DiskAction.resetFile ∧
    (load_catalog (.corrupt "\x7bnot valid json") "x").action = DiskAction.keep := by
  decide

/-- C4 amended: on content that fails to parse, load consults the
interactive recovery choice inside the load path itself; for every
choice the in-memory record sequence ends empty — never partially
populated — and load returns the plain boolean true, the same success
value as loading a missing or empty catalog, rather than a distinct
CorruptionDetected result. -/
theorem claim_C4 (raw choice : String) :
    (load_catalog (.corrupt raw) choice).books = [] ∧
    (load_catalog (.corrupt raw) choice).ok = true := by
  by_cases h1 : pyLower (pyStrip choice) = "r"
  · simp [load_catalog, h1]
  · by_cases h2 : pyLower (pyStrip choice) = "b"
    · simp [load_catalog, h1, h2]
    · simp [load_catalog, h1, h2]

/-- C5: issue on a NonCirculating record always fails with no mutation,
whatever its status; issue on a Standard available record sets the
status to issued and returns true; issue on a Standard already-issued
record fails with no mutation. -/
theorem claim_C5 (b : Book) :
    (b.isRef = true → Book.issue b = (b, false)) ∧
    (b.isRef = false → b.status = "available" →
      Book.issue b = (⟨b.title, b.author, b.isbn, "issued", b.isRef⟩, true)) ∧
    (b.isRef = false → b.status = "issued" → Book.issue b = (b, false)) := by
  have hne : (("issued" : String) == "available") = false := by decide
  refine ⟨fun h => by simp [Book.issue, h], fun h hs => ?_, fun h hs => ?_⟩
  · simp [Book.issue, Book.is_available, h, hs]
  · simp [Book.issue, Book.is_available, h, hs, hne]

/-- Witness for C5: the three cases at concrete records. -/
theorem claim_C5_witness :
    Book.issue ⟨"R", "A", "1", "issued", true⟩
        = (⟨"R", "A", "1", "issued", true⟩, false) ∧
    Book.issue ⟨"S", "A", "2", "available", false⟩
        = (⟨"S", "A", "2", "issued", false⟩, true) ∧
    Book.issue ⟨"S", "A", "3", "issued", false⟩
        = (⟨"S", "A", "3", "issued", false⟩, false) :=
  ⟨(claim_C5 ⟨"R", "A", "1", "issued", true⟩).1 rfl,
   (claim_C5 ⟨"S", "A", "2", "available", false⟩).2.1 rfl rfl,
   (claim_C5 ⟨"S", "A", "3", "issued", false⟩).2.2 rfl rfl⟩

/-- C6: decode fails exactly when one of the required fields title,
author, id is absent; a missing status defaults to "available"; a
missing type, or any type value other than "ReferenceBook" (in
particular every unknown value), yields the Standard variant. -/
theorem claim_C6 (d : BookDict) :
    (Book.from_dict d = none ↔ (d.title = none ∨ d.author = none ∨ d.isbn = none)) ∧
    (d.status = none → ∀ b, Book.from_dict d = some b → b.status = "available") ∧
    ((∀ s, d.type = some s → s ≠ "ReferenceBook") →
      ∀ b, Book.from_dict d = some b → b.isRef = false) := by
  obtain ⟨t, a, i, st, ty⟩ := d
  refine ⟨?_, ?_, ?_⟩
  · cases t <;> cases a <;> cases i <;> simp [Book.from_dict]
  · intro hst b hb
    simp only at hst
    subst hst
    cases t <;> cases a <;> cases i <;> simp [Book.from_dict] at hb
    rw [← hb]
    simp [mkBook, pyLower_pyStrip_available]
  · intro hty b hb
    cases t <;> cases a <;> cases i <;> simp [Book.from_dict] at hb
    rw [← hb]
    simp only [mkBook]
    cases ty with
    | none => simp [beq_book_refBook]
    | some s =>
        have hne : s ≠ "ReferenceBook" := hty s rfl
        simp [beq_eq_false_iff_ne.mpr hne]

/-- Witness for C6 at a concrete dict with required fields present,
status absent and an unknown type value. -/
theorem claim_C6_witness :
    (mkBook "T" "A" "1" "available" false).status = "available" ∧
    (mkBook "T" "A" "1" "available" false).isRef = false :=
  ⟨(claim_C6 ⟨some "T", some "A", some "1", none, some "Pamphlet"⟩).2.1 rfl
      (mkBook "T" "A" "1" "available" false) (by decide),
   (claim_C6 ⟨some "T", some "A", some "1", none, some "Pamphlet"⟩).2.2
      (by intro s hs href; cases hs; exact absurd href (by decide))
      (mkBook "T" "A" "1" "available" false) (by decide)⟩

/-- C7: from an empty store, adding the Standard record
(Go, A, 111) succeeds; issuing id 111 succeeds and sets the status to
issued; saving then produces exactly the one-element JSON array whose
object maps title to Go, author to A, isbn to 111, status to issued,
type to Book; loading that array into a fresh store succeeds and yields
one record with status issued. -/
theorem claim_C7 :
    add_book [] (mkBook "Go" "A" "111" "available" false)
        = ([⟨"Go", "A", "111", "available", false⟩], true) ∧
    issue_by_isbn [⟨"Go", "A", "111", "available", false⟩] "111"
        = ([⟨"Go", "A", "111", "issued", false⟩], true) ∧
    save_catalog [⟨"Go", "A", "111", "issued", false⟩]
        = [⟨some "Go", some "A", some "111", some "issued", some "Book"⟩] ∧
    load_catalog
        (.parsed [⟨some "Go", some "A", some "111", some "issued", some "Book"⟩]) ""
      = ⟨[⟨"Go", "A", "111", "issued", false⟩], true, DiskAction.keep⟩ := by
  decide

/-- C8 counterexample: with the store holding one record titled "Go",
the query " " (a single space) returns that record although its title
does not contain the query as a (case-insensitive) substring — the code
strips the query first, so the claim as stated fails. -/
theorem claim_C8_counterexample :
    search_by_title [⟨"Go", "A", "1", "available", false⟩] " "
        = [⟨"Go", "A", "1", "available", false⟩] ∧
    listContains (pyLower " ").data (pyLower "Go").data = false := by
  decide

/-- C8 amended: findByTitle returns exactly the records whose
lower-cased title contains the trimmed lower-cased query as a
substring, as a subsequence of the store (insertion order preserved);
the empty query — whose trimmed lower-cased form is empty, a substring
of everything — returns the whole store. -/
theorem claim_C8 (books : List Book) (q : String) :
    (search_by_title books q).Sublist books ∧
    (∀ b, b ∈ search_by_title books q ↔
        (b ∈ books ∧
          listContains (pyLower (pyStrip q)).data (pyLower b.title).data = true)) ∧
    (q = "" → search_by_title books q = books) := by
  refine ⟨List.filter_sublist _, fun b => by simp [search_by_title, List.mem_filter], ?_⟩
  intro hq
  subst hq
  apply List.filter_eq_self.mpr
  intro a _
  have h0 : (pyLower (pyStrip "")).data = ([] : List Char) := by decide
  rw [h0]
  exact listContains_nil _

/-- Witness for C8: the empty query on a three-record store returns all
three records in insertion order. -/
theorem claim_C8_witness :
    search_by_title
        [⟨"Alpha", "A", "1", "available", false⟩,
         ⟨"Beta", "B", "2", "available", false⟩,
         ⟨"Gamma", "C", "3", "available", false⟩] ""
      = [⟨"Alpha", "A", "1", "available", false⟩,
         ⟨"Beta", "B", "2", "available", false⟩,
         ⟨"Gamma", "C", "3", "available", false⟩] :=
  (claim_C8
    [⟨"Alpha", "A", "1", "available", false⟩,
     ⟨"Beta", "B", "2", "available", false⟩,
     ⟨"Gamma", "C", "3", "available", false⟩] "").2.2 rfl

/-- C9 counterexample: constructing a record with a whitespace-only
title succeeds (no ValidationError exists in the code) and produces a
record with empty title, which the store then accepts — so such a
record does reach the Store. -/
theorem claim_C9_counterexample :
    mkBook "   " "A" "7" "available" false = ⟨"", "A", "7", "available", false⟩ ∧
    add_book [] ⟨"", "A", "7", "available", false⟩
      = ([⟨"", "A", "7", "available", false⟩], true) := by
  decide

/-- C9 amended: construction never fails — it trims the fields and
normalizes the status — so a whitespace-only title yields a record
whose title is the empty string, and adding that record to an empty
store succeeds; empty-input rejection exists only in the CLI adapter's
input loop, not at construction. -/
theorem claim_C9 (t a i s : String) (h : pyStrip t = "") :
    (mkBook t a i s false).title = "" ∧
    (add_book [] (mkBook t a i s false)).2 = true := by
  refine ⟨h, ?_⟩
  simp [add_book, search_by_isbn]

/-- Witness for C9 at a concrete whitespace-only title. -/
theorem claim_C9_witness :
    (mkBook " " "A" "7" "available" false).title = "" ∧
    (add_book [] (mkBook " " "A" "7" "available" false)).2 = true :=
  claim_C9 " " "A" "7" "available" (by decide)

/-- C10: the stored status is always the whitespace-trimmed,
lower-cased form of the status string supplied at construction, so
constructing with "Issued" stores "issued" and decoding a record
persisted with status " AVAILABLE " stores "available" — mixed case is
normalized, not rejected. -/
theorem claim_C10 (t a i s : String) (r : Bool) :
    (mkBook t a i s r).status = pyLower (pyStrip s) ∧
    (Book.from_dict ⟨some "T", some "A", some "1", some "Issued", none⟩).map Book.status
        = some "issued" ∧
    (mkBook "T" "A" "1" " AVAILABLE " false).status = "available" :=
  ⟨rfl, by decide, by decide⟩
